import Mathlib

/-!
Verification of the turn-based two-party chat server (`src/server.py`,
`src/client.py`).  The server coordinates a strictly sequenced conversation
between two departments, `RH` and `TI`.  We embed the server's shared state
(`ChatServer.__init__`), the per-event handlers
(`_handle_msg_from_client`, `_handle_quit`, the `finally` block of
`_handle_client`) and the shutdown routine (`_finish`) as pure functions on
an explicit state record; the concurrency of the Python original is
represented by running an arbitrary interleaving of handler events, each of
which is atomic in the embedding (mirroring the per-structure locks of the
source).
-/

namespace Chat

/-- The two department roles (keys of `ChatServer.clients`). -/
inductive Dept : Type
  | RH
  | TI
  deriving DecidableEq, Repr

/-- Printable name of a department, as used in wire frames. -/
def deptName : Dept → String
  | Dept.RH => "RH"
  | Dept.TI => "TI"

/-- Computes `other = "TI" if dept == "RH" else "RH"` — the peer of a role
(`server.py` lines 176, 202, 246). -/
def otherDept : Dept → Dept
  | Dept.RH => Dept.TI
  | Dept.TI => Dept.RH

/-- Per-client state kept by the server: the `active` liveness flag of
`ClientInfo` and whether the client socket is still open. -/
structure ClientInfo : Type where
  active : Bool
  sockOpen : Bool
  deriving DecidableEq, Repr

/-- A history entry `(seq, from_dep, texto)` as appended to
`ChatServer.history`. -/
structure HistoryEntry : Type where
  seq : Nat
  sender : Dept
  text : String
  deriving DecidableEq, Repr

/-- Frames sent from the server to a client (`server.py` module docstring):
`ROLE|<DEPT>|<START>`, `TURN`, `MSG|<SEQ>|<FROM>|<TEXT>`, `INFO|<TEXT>`,
`SHUTDOWN`. -/
inductive SFrame : Type
  | roleF (d : Dept) (start : Bool)
  | turn
  | msg (seq : Nat) (sender : Dept) (text : String)
  | info (text : String)
  | shutdown
  deriving DecidableEq, Repr

/-- The shared server state of `ChatServer.__init__`: the client map, the
history list, the global sequence counter, the current turn holder and the
shutdown event flag, plus whether the listening socket is open. -/
structure ServerState : Type where
  clients : Dept → ClientInfo
  history : List HistoryEntry
  seq : Nat
  turn_dept : Option Dept
  shutdownFlag : Bool
  serverSockOpen : Bool

/-- Mark one client's `active` flag. -/
def setActive (s : ServerState) (d : Dept) (b : Bool) : ServerState :=
  { s with clients := fun d' =>
      if d' = d then { s.clients d' with active := b } else s.clients d' }

/-- Close one client's socket (`info.sock.close()`). -/
def closeSock (s : ServerState) (d : Dept) : ServerState :=
  { s with clients := fun d' =>
      if d' = d then { s.clients d' with sockOpen := false } else s.clients d' }

/-- Tests `all(not c.active for c in self.clients.values())` — both
participants inactive (`server.py` lines 182, 224, 251). -/
def allInactive (s : ServerState) : Bool :=
  !(s.clients Dept.RH).active && !(s.clients Dept.TI).active

/-- Set the shutdown event when both clients are inactive
(`self.shutdown_event.set()`); `threading.Event.set` is idempotent, so the
flag is only ever driven to `true`. -/
def checkShutdown (s : ServerState) : ServerState :=
  if allInactive s then { s with shutdownFlag := true } else s

/-- Python `str.strip()`: remove whitespace from both ends. -/
def pyStrip (s : String) : String :=
  ⟨((s.data.dropWhile Char.isWhitespace).reverse.dropWhile Char.isWhitespace).reverse⟩

/-- Python `str.lower()`: lowercase every character. -/
def pyLower (s : String) : String :=
  ⟨s.data.map Char.toLower⟩

/-- Evaluates `text.strip().lower() == "sair"` — the leave-keyword test of
`_handle_msg_from_client` (`server.py` line 219). -/
def isSair (text : String) : Bool :=
  pyLower (pyStrip text) == "sair"

/-- Lines 193-200 of `_handle_msg_from_client`: take the next sequence
number under `seq_lock` and append `(seq, dept_from, text)` to the history
under `history_lock`. -/
def recordMsg (s : ServerState) (dept_from : Dept) (text : String) : ServerState :=
  { s with seq := s.seq + 1, history := s.history ++ [⟨s.seq + 1, dept_from, text⟩] }

/-- Lines 202-216 of `_handle_msg_from_client`: when the peer is active,
send it the message and the turn (no echo to the sender) and set
`turn_dept` to the peer; otherwise, when the sender is still active, send
the sender an offline notice and return the turn to it; otherwise do
nothing. -/
def deliverMsg (s : ServerState) (dept_from : Dept) (seq : Nat) (text : String) :
    ServerState × List (Dept × SFrame) :=
  let oth := otherDept dept_from
  if (s.clients oth).active then
    ({ s with turn_dept := some oth },
      [(oth, SFrame.msg seq dept_from text), (oth, SFrame.turn)])
  else if (s.clients dept_from).active then
    ({ s with turn_dept := some dept_from },
      [(dept_from, SFrame.info (deptName oth ++ " offline. Sua mensagem foi registrada.")),
        (dept_from, SFrame.turn)])
  else (s, [])

/-- Lines 218-225 of `_handle_msg_from_client`: when the text is the leave
keyword, mark the sender inactive and signal shutdown when both are now
inactive. -/
def sairCheck (s : ServerState) (dept_from : Dept) (text : String) : ServerState :=
  if isSair text then checkShutdown (setActive s dept_from false) else s

/-- Models `_handle_msg_from_client(dept_from, text)`: assigns the next sequence
number, appends the entry to the history, forwards the message and the turn
to the peer when the peer is active (no echo to the sender), otherwise
informs an active sender and returns the turn to it; finally, when the text
is the leave keyword, marks the sender inactive and checks the shutdown
condition.  Returns the new state together with the list of
(recipient, frame) pairs written to sockets. -/
def handleMsgFromClient (s : ServerState) (dept_from : Dept) (text : String) :
    ServerState × List (Dept × SFrame) :=
  let s1 := recordMsg s dept_from text
  let p := deliverMsg s1 dept_from s1.seq text
  (sairCheck p.1 dept_from text, p.2)

/-- Models `_handle_quit(dept)`: appends a synthetic `"sair"` entry to the history
under a fresh sequence number, marks the sender inactive, notifies an
active peer with `INFO` plus `TURN`, and checks the shutdown condition. -/
def handleQuit (s : ServerState) (dept : Dept) : ServerState × List (Dept × SFrame) :=
  let seq := s.seq + 1
  let s1 : ServerState :=
    { s with seq := seq, history := s.history ++ [⟨seq, dept, "sair"⟩] }
  let s2 := setActive s1 dept false
  let oth := otherDept dept
  let out :=
    if (s2.clients oth).active then
      [(oth, SFrame.info (deptName dept ++ " saiu. Você ainda pode enviar mensagens.")),
        (oth, SFrame.turn)]
    else []
  (checkShutdown s2, out)

/-- The `finally` block of `_handle_client`: mark the client inactive,
close its socket, notify an active peer with `INFO` plus `TURN`, and check
the shutdown condition (`server.py` lines 166-183).  It runs on stream
closure or read error, and also after an explicit `QUIT` breaks the loop. -/
def handlerFinally (s : ServerState) (dept : Dept) : ServerState × List (Dept × SFrame) :=
  let s1 := closeSock (setActive s dept false) dept
  let oth := otherDept dept
  let out :=
    if (s1.clients oth).active then
      [(oth, SFrame.info (deptName dept ++ " desconectou. Você pode continuar.")),
        (oth, SFrame.turn)]
    else []
  (checkShutdown s1, out)

/-- One atomic event processed by a connection handler: a content frame
`MSG|<text>`, an explicit `QUIT` (which runs `_handle_quit`, breaks the
loop and then runs the `finally` block), or a stream closure / read error
(which runs only the `finally` block). -/
inductive Event : Type
  | msg (d : Dept) (text : String)
  | quit (d : Dept)
  | disconnect (d : Dept)
  deriving DecidableEq, Repr

/-- Dispatch one event to the handler code it triggers in
`_handle_client`. -/
def step (s : ServerState) : Event → ServerState × List (Dept × SFrame)
  | Event.msg d text => handleMsgFromClient s d text
  | Event.quit d =>
      let p1 := handleQuit s d
      let p2 := handlerFinally p1.1 d
      (p2.1, p1.2 ++ p2.2)
  | Event.disconnect d => handlerFinally s d

/-- Run a sequence of handler events, accumulating all frames written. -/
def run (s : ServerState) : List Event → ServerState × List (Dept × SFrame)
  | [] => (s, [])
  | e :: es =>
      let p1 := step s e
      let p2 := run p1.1 es
      (p2.1, p1.2 ++ p2.2)

/-- State after both clients registered but before the turn is assigned:
`turn_dept` is `None` (`ChatServer.__init__`). -/
def preStartState : ServerState :=
  { clients := fun _ => ⟨true, true⟩
    history := []
    seq := 0
    turn_dept := none
    shutdownFlag := false
    serverSockOpen := true }

/-- Applies `if self.turn_dept is None: self.turn_dept = "RH"` — the default
starter assignment in `ChatServer.start` (lines 113-114). -/
def startSession (s : ServerState) : ServerState :=
  if s.turn_dept = none then { s with turn_dept := some Dept.RH } else s

/-- The state at the start of the session with the default starter. -/
def startedState : ServerState :=
  startSession preStartState

/-- Result of `_finish`: the ordered history dump that is printed, the
frames written, and the final state with every socket closed. -/
structure FinishResult : Type where
  dump : List HistoryEntry
  frames : List (Dept × SFrame)
  state : ServerState

/-- Iteration order of `self.clients.values()`: insertion order of the
dict, `RH` first then `TI` (`ChatServer.start`). -/
def deptOrder : List Dept := [Dept.RH, Dept.TI]

/-- Models `_finish`: print the history sorted by sequence number, send
`SHUTDOWN` to each client whose `active` flag is still set, close every
client socket and the listening socket (`server.py` lines 280-305). -/
def finish (s : ServerState) : FinishResult :=
  { dump := s.history.mergeSort (fun a b => a.seq ≤ b.seq)
    frames := (deptOrder.filter (fun d => (s.clients d).active)).map
      (fun d => (d, SFrame.shutdown))
    state := { s with
      clients := fun d => { s.clients d with sockOpen := false }
      serverSockOpen := false } }

/-- Frames the interactive client can send: `MSG|<text>` or `QUIT`. -/
inductive CFrame : Type
  | msg (text : String)
  | quit
  deriving DecidableEq, Repr

/-- One iteration of `ChatClient.run_interactive` on a user input line:
the input is stripped; when it equals the leave keyword case-insensitively
the client sends the literal `MSG|sair` followed by `QUIT`, otherwise the
stripped text as a single `MSG` frame (`client.py` lines 110-122). -/
def clientFramesForInput (raw : String) : List CFrame :=
  let msg := pyStrip raw
  if pyLower msg == "sair" then [CFrame.msg "sair", CFrame.quit]
  else [CFrame.msg msg]

/-- The server event triggered by a client frame arriving from role `d`
(`_handle_client` lines 156-161). -/
def eventOfCFrame (d : Dept) : CFrame → Event
  | CFrame.msg text => Event.msg d text
  | CFrame.quit => Event.quit d

/-- Recognizer for informational `INFO|<text>` frames. -/
def isInfoFrame : SFrame → Bool
  | SFrame.info _ => true
  | _ => false

/-- Sequencing invariant: the history's sequence numbers are exactly
`1, 2, ..., seq` in append order — strictly increasing, starting at 1,
with no gaps and no repeats. -/
def seqInvariant (s : ServerState) : Prop :=
  s.history.map HistoryEntry.seq = List.range' 1 s.seq

/-- Shutdown invariant: whenever both participants are inactive, the
shutdown event has been signalled. -/
def shutdownInvariant (s : ServerState) : Prop :=
  allInactive s = true → s.shutdownFlag = true

/-- Reachable state used to analyse claim C3: `RH` leaves via the keyword
message, then `TI` quits, which triggers shutdown. -/
def c3state : ServerState :=
  (run startedState [Event.msg Dept.RH "sair", Event.quit Dept.TI]).1

/-- Reachable state used to analyse claim C5: after `RH` leaves via the
keyword message (socket left open) and `TI` quits, shutdown is triggered
with `RH` inactive but still holding an open socket. -/
def c5state : ServerState :=
  (run startedState [Event.msg Dept.RH "sair", Event.quit Dept.TI]).1

end Chat

namespace Chat

example : isSair "sair" = true := by decide

example : isSair " SAIR " = true := by decide

example : isSair "oi" = false := by decide

example : (handleMsgFromClient startedState Dept.TI "oi").1.seq = 1 := by decide

/-! ### Basic lemmas about the state operations -/

@[simp]
theorem otherDept_ne (d : Dept) : otherDept d ≠ d := by
  cases d <;> simp [otherDept]

@[simp]
theorem setActive_history (s : ServerState) (d : Dept) (b : Bool) :
    (setActive s d b).history = s.history := rfl

@[simp]
theorem setActive_seq (s : ServerState) (d : Dept) (b : Bool) :
    (setActive s d b).seq = s.seq := rfl

@[simp]
theorem setActive_turn (s : ServerState) (d : Dept) (b : Bool) :
    (setActive s d b).turn_dept = s.turn_dept := rfl

@[simp]
theorem setActive_flag (s : ServerState) (d : Dept) (b : Bool) :
    (setActive s d b).shutdownFlag = s.shutdownFlag := rfl

@[simp]
theorem setActive_clients_same (s : ServerState) (d : Dept) (b : Bool) :
    (setActive s d b).clients d = { s.clients d with active := b } := by
  simp [setActive]

@[simp]
theorem setActive_clients_ne (s : ServerState) (d d' : Dept) (b : Bool) (h : d' ≠ d) :
    (setActive s d b).clients d' = s.clients d' := by
  simp [setActive, h]

@[simp]
theorem closeSock_history (s : ServerState) (d : Dept) :
    (closeSock s d).history = s.history := rfl

@[simp]
theorem closeSock_seq (s : ServerState) (d : Dept) :
    (closeSock s d).seq = s.seq := rfl

@[simp]
theorem closeSock_turn (s : ServerState) (d : Dept) :
    (closeSock s d).turn_dept = s.turn_dept := rfl

@[simp]
theorem closeSock_flag (s : ServerState) (d : Dept) :
    (closeSock s d).shutdownFlag = s.shutdownFlag := rfl

@[simp]
theorem closeSock_active (s : ServerState) (d d' : Dept) :
    ((closeSock s d).clients d').active = (s.clients d').active := by
  by_cases h : d' = d <;> simp [closeSock, h]

@[simp]
theorem checkShutdown_history (s : ServerState) :
    (checkShutdown s).history = s.history := by
  unfold checkShutdown; split <;> rfl

@[simp]
theorem checkShutdown_seq (s : ServerState) :
    (checkShutdown s).seq = s.seq := by
  unfold checkShutdown; split <;> rfl

@[simp]
theorem checkShutdown_turn (s : ServerState) :
    (checkShutdown s).turn_dept = s.turn_dept := by
  unfold checkShutdown; split <;> rfl

@[simp]
theorem checkShutdown_clients (s : ServerState) :
    (checkShutdown s).clients = s.clients := by
  unfold checkShutdown; split <;> rfl

@[simp]
theorem allInactive_checkShutdown (s : ServerState) :
    allInactive (checkShutdown s) = allInactive s := by
  unfold allInactive; rw [checkShutdown_clients]

theorem checkShutdown_flag_mono (s : ServerState) (h : s.shutdownFlag = true) :
    (checkShutdown s).shutdownFlag = true := by
  unfold checkShutdown; split <;> simp [h]

theorem shutInv_checkShutdown (s : ServerState)
    (h : allInactive (checkShutdown s) = true) :
    (checkShutdown s).shutdownFlag = true := by
  rw [allInactive_checkShutdown] at h
  unfold checkShutdown
  simp [h]

@[simp]
theorem recordMsg_history (s : ServerState) (d : Dept) (t : String) :
    (recordMsg s d t).history = s.history ++ [⟨s.seq + 1, d, t⟩] := rfl

@[simp]
theorem recordMsg_seq (s : ServerState) (d : Dept) (t : String) :
    (recordMsg s d t).seq = s.seq + 1 := rfl

@[simp]
theorem recordMsg_clients (s : ServerState) (d : Dept) (t : String) :
    (recordMsg s d t).clients = s.clients := rfl

@[simp]
theorem recordMsg_turn (s : ServerState) (d : Dept) (t : String) :
    (recordMsg s d t).turn_dept = s.turn_dept := rfl

@[simp]
theorem recordMsg_flag (s : ServerState) (d : Dept) (t : String) :
    (recordMsg s d t).shutdownFlag = s.shutdownFlag := rfl

@[simp]
theorem deliverMsg_fst_history (s : ServerState) (d : Dept) (q : Nat) (t : String) :
    (deliverMsg s d q t).1.history = s.history := by
  unfold deliverMsg
  dsimp only
  split
  · rfl
  · split <;> rfl

@[simp]
theorem deliverMsg_fst_seq (s : ServerState) (d : Dept) (q : Nat) (t : String) :
    (deliverMsg s d q t).1.seq = s.seq := by
  unfold deliverMsg
  dsimp only
  split
  · rfl
  · split <;> rfl

@[simp]
theorem deliverMsg_fst_clients (s : ServerState) (d : Dept) (q : Nat) (t : String) :
    (deliverMsg s d q t).1.clients = s.clients := by
  unfold deliverMsg
  dsimp only
  split
  · rfl
  · split <;> rfl

@[simp]
theorem deliverMsg_fst_flag (s : ServerState) (d : Dept) (q : Nat) (t : String) :
    (deliverMsg s d q t).1.shutdownFlag = s.shutdownFlag := by
  unfold deliverMsg
  dsimp only
  split
  · rfl
  · split <;> rfl

theorem deliverMsg_turn_grant (s : ServerState) (d : Dept) (q : Nat) (t : String) :
    (deliverMsg s d q t).1.turn_dept = s.turn_dept ∨
      ∃ r, (deliverMsg s d q t).1.turn_dept = some r ∧ (s.clients r).active = true := by
  unfold deliverMsg
  dsimp only
  split
  · next h => exact Or.inr ⟨otherDept d, rfl, h⟩
  · split
    · next h => exact Or.inr ⟨d, rfl, h⟩
    · exact Or.inl rfl

theorem deliverMsg_turn_isSome (s : ServerState) (d : Dept) (q : Nat) (t : String)
    (h : s.turn_dept.isSome = true) :
    ((deliverMsg s d q t).1.turn_dept).isSome = true := by
  rcases deliverMsg_turn_grant s d q t with heq | ⟨r, heq, _⟩ <;> rw [heq] <;> simp [h]

theorem deliverMsg_turn_frame_active (s : ServerState) (d : Dept) (q : Nat) (t : String)
    (r : Dept) (h : (r, SFrame.turn) ∈ (deliverMsg s d q t).2) :
    (s.clients r).active = true := by
  unfold deliverMsg at h
  dsimp only at h
  split at h
  · next hact =>
    cases h with
    | tail _ h2 =>
      cases h2 with
      | head => exact hact
      | tail _ h3 => cases h3
  · split at h
    · next hact =>
      cases h with
      | tail _ h2 =>
        cases h2 with
        | head => exact hact
        | tail _ h3 => cases h3
    · cases h

@[simp]
theorem sairCheck_history (s : ServerState) (d : Dept) (t : String) :
    (sairCheck s d t).history = s.history := by
  unfold sairCheck; split <;> simp

@[simp]
theorem sairCheck_seq (s : ServerState) (d : Dept) (t : String) :
    (sairCheck s d t).seq = s.seq := by
  unfold sairCheck; split <;> simp

@[simp]
theorem sairCheck_turn (s : ServerState) (d : Dept) (t : String) :
    (sairCheck s d t).turn_dept = s.turn_dept := by
  unfold sairCheck; split <;> simp

theorem sairCheck_active_mono (s : ServerState) (d d' : Dept) (t : String)
    (h : ((sairCheck s d t).clients d').active = true) :
    (s.clients d').active = true := by
  unfold sairCheck at h
  split at h
  · rw [checkShutdown_clients] at h
    by_cases hd : d' = d
    · subst hd; rw [setActive_clients_same] at h; exact absurd h (by simp)
    · rwa [setActive_clients_ne _ _ _ _ hd] at h
  · exact h

theorem handleMsg_fst_history (s : ServerState) (d : Dept) (t : String) :
    (handleMsgFromClient s d t).1.history = s.history ++ [⟨s.seq + 1, d, t⟩] := by
  unfold handleMsgFromClient
  dsimp only
  rw [sairCheck_history, deliverMsg_fst_history, recordMsg_history]

theorem handleMsg_fst_seq (s : ServerState) (d : Dept) (t : String) :
    (handleMsgFromClient s d t).1.seq = s.seq + 1 := by
  unfold handleMsgFromClient
  dsimp only
  rw [sairCheck_seq, deliverMsg_fst_seq, recordMsg_seq]

theorem handleMsg_fst_turn (s : ServerState) (d : Dept) (t : String) :
    (handleMsgFromClient s d t).1.turn_dept = (deliverMsg (recordMsg s d t) d (s.seq + 1) t).1.turn_dept := by
  unfold handleMsgFromClient
  dsimp only
  rw [sairCheck_turn, recordMsg_seq]

theorem handleQuit_fst_history (s : ServerState) (d : Dept) :
    (handleQuit s d).1.history = s.history ++ [⟨s.seq + 1, d, "sair"⟩] := by
  unfold handleQuit
  dsimp only
  rw [checkShutdown_history, setActive_history]

theorem handleQuit_fst_seq (s : ServerState) (d : Dept) :
    (handleQuit s d).1.seq = s.seq + 1 := by
  unfold handleQuit
  dsimp only
  rw [checkShutdown_seq, setActive_seq]

theorem handleQuit_fst_turn (s : ServerState) (d : Dept) :
    (handleQuit s d).1.turn_dept = s.turn_dept := by
  unfold handleQuit
  dsimp only
  rw [checkShutdown_turn, setActive_turn]

theorem handleQuit_fst_clients_other (s : ServerState) (d d' : Dept) (h : d' ≠ d) :
    (handleQuit s d).1.clients d' = s.clients d' := by
  unfold handleQuit
  dsimp only
  rw [checkShutdown_clients, setActive_clients_ne _ _ _ _ h]

theorem handleQuit_fst_self_inactive (s : ServerState) (d : Dept) :
    ((handleQuit s d).1.clients d).active = false := by
  unfold handleQuit
  dsimp only
  rw [checkShutdown_clients, setActive_clients_same]

theorem handlerFinally_fst_history (s : ServerState) (d : Dept) :
    (handlerFinally s d).1.history = s.history := by
  unfold handlerFinally
  dsimp only
  rw [checkShutdown_history, closeSock_history, setActive_history]

theorem handlerFinally_fst_seq (s : ServerState) (d : Dept) :
    (handlerFinally s d).1.seq = s.seq := by
  unfold handlerFinally
  dsimp only
  rw [checkShutdown_seq, closeSock_seq, setActive_seq]

theorem handlerFinally_fst_turn (s : ServerState) (d : Dept) :
    (handlerFinally s d).1.turn_dept = s.turn_dept := by
  unfold handlerFinally
  dsimp only
  rw [checkShutdown_turn, closeSock_turn, setActive_turn]

theorem handlerFinally_fst_self_inactive (s : ServerState) (d : Dept) :
    ((handlerFinally s d).1.clients d).active = false := by
  unfold handlerFinally
  dsimp only
  rw [checkShutdown_clients, closeSock_active, setActive_clients_same]

theorem handlerFinally_fst_self_closed (s : ServerState) (d : Dept) :
    ((handlerFinally s d).1.clients d).sockOpen = false := by
  unfold handlerFinally
  dsimp only
  rw [checkShutdown_clients]
  simp [closeSock]

theorem handlerFinally_fst_clients_other (s : ServerState) (d d' : Dept) (h : d' ≠ d) :
    (handlerFinally s d).1.clients d' = s.clients d' := by
  unfold handlerFinally
  dsimp only
  rw [checkShutdown_clients]
  simp [closeSock, setActive, h]

theorem handleQuit_snd_of_active (s : ServerState) (d : Dept)
    (h : (s.clients (otherDept d)).active = true) :
    (handleQuit s d).2 =
      [(otherDept d, SFrame.info (deptName d ++ " saiu. Você ainda pode enviar mensagens.")),
        (otherDept d, SFrame.turn)] := by
  unfold handleQuit
  dsimp only
  rw [setActive_clients_ne _ _ _ _ (otherDept_ne d)]
  simp [h]

theorem handlerFinally_snd_of_active (s : ServerState) (d : Dept)
    (h : (s.clients (otherDept d)).active = true) :
    (handlerFinally s d).2 =
      [(otherDept d, SFrame.info (deptName d ++ " desconectou. Você pode continuar.")),
        (otherDept d, SFrame.turn)] := by
  unfold handlerFinally
  dsimp only
  rw [closeSock_active, setActive_clients_ne _ _ _ _ (otherDept_ne d)]
  simp [h]

/-! ### Step-level preservation lemmas -/

theorem step_active_mono (s : ServerState) (e : Event) (d' : Dept)
    (h : ((step s e).1.clients d').active = true) :
    (s.clients d').active = true := by
  cases e with
  | msg d t =>
    unfold step handleMsgFromClient at h
    dsimp only at h
    have h2 := sairCheck_active_mono _ d d' t h
    rwa [deliverMsg_fst_clients, recordMsg_clients] at h2
  | quit d =>
    unfold step at h
    dsimp only at h
    by_cases hd : d' = d
    · subst hd
      rw [handlerFinally_fst_self_inactive] at h
      exact Bool.noConfusion h
    · rw [handlerFinally_fst_clients_other _ _ _ hd,
        handleQuit_fst_clients_other _ _ _ hd] at h
      exact h
  | disconnect d =>
    unfold step at h
    by_cases hd : d' = d
    · subst hd
      rw [handlerFinally_fst_self_inactive] at h
      exact Bool.noConfusion h
    · rw [handlerFinally_fst_clients_other _ _ _ hd] at h
      exact h

theorem step_inactive_pres (s : ServerState) (e : Event) (d' : Dept)
    (h : (s.clients d').active = false) :
    ((step s e).1.clients d').active = false := by
  cases hx : ((step s e).1.clients d').active
  · rfl
  · rw [step_active_mono s e d' hx] at h
    exact h

theorem allInactive_step_mono (s : ServerState) (e : Event)
    (h : allInactive s = true) :
    allInactive (step s e).1 = true := by
  unfold allInactive at h ⊢
  simp only [Bool.and_eq_true, Bool.not_eq_true'] at h ⊢
  exact ⟨step_inactive_pres s e Dept.RH h.1, step_inactive_pres s e Dept.TI h.2⟩

theorem handleMsg_flag_mono (s : ServerState) (d : Dept) (t : String)
    (h : s.shutdownFlag = true) :
    (handleMsgFromClient s d t).1.shutdownFlag = true := by
  unfold handleMsgFromClient sairCheck
  dsimp only
  split
  · apply checkShutdown_flag_mono
    simpa using h
  · simpa using h

theorem handlerFinally_flag_mono (s : ServerState) (d : Dept)
    (h : s.shutdownFlag = true) :
    (handlerFinally s d).1.shutdownFlag = true := by
  unfold handlerFinally
  dsimp only
  apply checkShutdown_flag_mono
  simpa using h

theorem handleQuit_flag_mono (s : ServerState) (d : Dept)
    (h : s.shutdownFlag = true) :
    (handleQuit s d).1.shutdownFlag = true := by
  unfold handleQuit
  dsimp only
  apply checkShutdown_flag_mono
  simpa using h

theorem step_flag_mono (s : ServerState) (e : Event)
    (h : s.shutdownFlag = true) :
    (step s e).1.shutdownFlag = true := by
  cases e with
  | msg d t => exact handleMsg_flag_mono s d t h
  | quit d => exact handlerFinally_flag_mono _ d (handleQuit_flag_mono s d h)
  | disconnect d => exact handlerFinally_flag_mono s d h

theorem sairCheck_shutInv (s : ServerState) (d : Dept) (t : String)
    (h : allInactive s = true → s.shutdownFlag = true)
    (ha : allInactive (sairCheck s d t) = true) :
    (sairCheck s d t).shutdownFlag = true := by
  unfold sairCheck at ha ⊢
  by_cases hs : isSair t = true
  · rw [if_pos hs] at ha ⊢
    exact shutInv_checkShutdown _ ha
  · rw [if_neg hs] at ha ⊢
    exact h ha

theorem step_shutInv (s : ServerState) (e : Event)
    (h : shutdownInvariant s) : shutdownInvariant (step s e).1 := by
  intro ha
  cases e with
  | msg d t =>
    unfold step handleMsgFromClient at ha ⊢
    dsimp only at ha ⊢
    refine sairCheck_shutInv _ d t (fun hp => ?_) ha
    rw [deliverMsg_fst_flag, recordMsg_flag]
    apply h
    unfold allInactive at hp ⊢
    rwa [deliverMsg_fst_clients, recordMsg_clients] at hp
  | quit d =>
    unfold step handlerFinally at ha ⊢
    dsimp only at ha ⊢
    exact shutInv_checkShutdown _ ha
  | disconnect d =>
    unfold step handlerFinally at ha ⊢
    dsimp only at ha ⊢
    exact shutInv_checkShutdown _ ha

theorem step_seqInv (s : ServerState) (e : Event)
    (h : seqInvariant s) : seqInvariant (step s e).1 := by
  unfold seqInvariant at h ⊢
  cases e with
  | msg d t =>
    show (handleMsgFromClient s d t).1.history.map HistoryEntry.seq
      = List.range' 1 (handleMsgFromClient s d t).1.seq
    rw [handleMsg_fst_history, handleMsg_fst_seq, List.map_append, h,
      List.range'_1_concat]
    simp [Nat.add_comm]
  | quit d =>
    show ((handlerFinally (handleQuit s d).1 d).1.history).map HistoryEntry.seq
      = List.range' 1 (handlerFinally (handleQuit s d).1 d).1.seq
    rw [handlerFinally_fst_history, handlerFinally_fst_seq,
      handleQuit_fst_history, handleQuit_fst_seq, List.map_append, h,
      List.range'_1_concat]
    simp [Nat.add_comm]
  | disconnect d =>
    show ((handlerFinally s d).1.history).map HistoryEntry.seq
      = List.range' 1 (handlerFinally s d).1.seq
    rw [handlerFinally_fst_history, handlerFinally_fst_seq]
    exact h

theorem step_turn_isSome (s : ServerState) (e : Event)
    (h : s.turn_dept.isSome = true) :
    ((step s e).1.turn_dept).isSome = true := by
  cases e with
  | msg d t =>
    rw [show (step s (Event.msg d t)).1 = (handleMsgFromClient s d t).1 from rfl,
      handleMsg_fst_turn]
    exact deliverMsg_turn_isSome _ d _ t (by simpa using h)
  | quit d =>
    show ((handlerFinally (handleQuit s d).1 d).1.turn_dept).isSome = true
    rw [handlerFinally_fst_turn, handleQuit_fst_turn]
    exact h
  | disconnect d =>
    show ((handlerFinally s d).1.turn_dept).isSome = true
    rw [handlerFinally_fst_turn]
    exact h

theorem handleMsg_snd_of_peer_active (s : ServerState) (d : Dept) (t : String)
    (hpeer : (s.clients (otherDept d)).active = true) :
    (handleMsgFromClient s d t).2
      = [(otherDept d, SFrame.msg (s.seq + 1) d t), (otherDept d, SFrame.turn)] := by
  unfold handleMsgFromClient deliverMsg
  dsimp only
  rw [recordMsg_clients, recordMsg_seq]
  simp [hpeer]

theorem handleMsg_turn_of_peer_active (s : ServerState) (d : Dept) (t : String)
    (hpeer : (s.clients (otherDept d)).active = true) :
    (handleMsgFromClient s d t).1.turn_dept = some (otherDept d) := by
  rw [handleMsg_fst_turn]
  unfold deliverMsg
  dsimp only
  rw [recordMsg_clients]
  simp [hpeer]

theorem handleMsg_snd_of_peer_inactive (s : ServerState) (d : Dept) (t : String)
    (hpeer : (s.clients (otherDept d)).active = false)
    (hself : (s.clients d).active = true) :
    (handleMsgFromClient s d t).2
      = [(d, SFrame.info (deptName (otherDept d) ++ " offline. Sua mensagem foi registrada.")),
          (d, SFrame.turn)] := by
  unfold handleMsgFromClient deliverMsg
  dsimp only
  rw [recordMsg_clients]
  simp [hpeer, hself]

theorem handleMsg_turn_of_peer_inactive (s : ServerState) (d : Dept) (t : String)
    (hpeer : (s.clients (otherDept d)).active = false)
    (hself : (s.clients d).active = true) :
    (handleMsgFromClient s d t).1.turn_dept = some d := by
  rw [handleMsg_fst_turn]
  unfold deliverMsg
  dsimp only
  rw [recordMsg_clients]
  simp [hpeer, hself]

theorem handleMsg_self_inactive_of_sair (s : ServerState) (d : Dept) (t : String)
    (hs : isSair t = true) :
    ((handleMsgFromClient s d t).1.clients d).active = false := by
  unfold handleMsgFromClient sairCheck
  dsimp only
  rw [if_pos hs, checkShutdown_clients, setActive_clients_same]

/-! ### Run-level invariants -/

theorem run_fst_cons (s : ServerState) (e : Event) (es : List Event) :
    (run s (e :: es)).1 = (run (step s e).1 es).1 := rfl

theorem run_seqInv (s : ServerState) (es : List Event)
    (h : seqInvariant s) : seqInvariant (run s es).1 := by
  induction es generalizing s with
  | nil => exact h
  | cons e es ih =>
    rw [run_fst_cons]
    exact ih _ (step_seqInv s e h)

theorem run_shutInv (s : ServerState) (es : List Event)
    (h : shutdownInvariant s) : shutdownInvariant (run s es).1 := by
  induction es generalizing s with
  | nil => exact h
  | cons e es ih =>
    rw [run_fst_cons]
    exact ih _ (step_shutInv s e h)

theorem run_turn_isSome (s : ServerState) (es : List Event)
    (h : s.turn_dept.isSome = true) :
    ((run s es).1.turn_dept).isSome = true := by
  induction es generalizing s with
  | nil => exact h
  | cons e es ih =>
    rw [run_fst_cons]
    exact ih _ (step_turn_isSome s e h)

theorem step_turn_frame_active (s : ServerState) (e : Event) (r : Dept)
    (h : (r, SFrame.turn) ∈ (step s e).2) :
    (s.clients r).active = true := by
  cases e with
  | msg d t =>
    have h2 : (r, SFrame.turn) ∈ (deliverMsg (recordMsg s d t) d (recordMsg s d t).seq t).2 := h
    have h3 := deliverMsg_turn_frame_active _ d _ t r h2
    rwa [recordMsg_clients] at h3
  | quit d =>
    rcases List.mem_append.mp h with h1 | h1
    · unfold handleQuit at h1
      dsimp only at h1
      rw [setActive_clients_ne _ _ _ _ (otherDept_ne d)] at h1
      split at h1
      · next hact =>
        cases h1 with
        | tail _ h2 =>
          cases h2 with
          | head => exact hact
          | tail _ h3 => cases h3
      · cases h1
    · unfold handlerFinally at h1
      dsimp only at h1
      rw [closeSock_active, setActive_clients_ne _ _ _ _ (otherDept_ne d)] at h1
      split at h1
      · next hact =>
        rw [handleQuit_fst_clients_other _ _ _ (otherDept_ne d)] at hact
        cases h1 with
        | tail _ h2 =>
          cases h2 with
          | head => exact hact
          | tail _ h3 => cases h3
      · cases h1
  | disconnect d =>
    unfold step handlerFinally at h
    dsimp only at h
    rw [closeSock_active, setActive_clients_ne _ _ _ _ (otherDept_ne d)] at h
    split at h
    · next hact =>
      cases h with
      | tail _ h2 =>
        cases h2 with
        | head => exact hact
        | tail _ h3 => cases h3
    · cases h

/-! ### Claim theorems -/

/-- C1 counterexample: with the turn held by RH, a content frame from TI
(which does not hold the turn) is nevertheless accepted: it is sequenced,
recorded in the history and delivered to RH.  The server performs no turn
check in `_handle_msg_from_client`. -/
theorem C1_counterexample :
    startedState.turn_dept = some Dept.RH
    ∧ (step startedState (Event.msg Dept.TI "oi")).1.history
        = [⟨1, Dept.TI, "oi"⟩]
    ∧ (step startedState (Event.msg Dept.TI "oi")).1.seq = 1
    ∧ (step startedState (Event.msg Dept.TI "oi")).2
        = [(Dept.RH, SFrame.msg 1 Dept.TI "oi"), (Dept.RH, SFrame.turn)] := by
  decide

/-- C1 (amended): the server accepts, sequences and records every content
frame regardless of whether the sending role holds the turn — the history
append does not depend on `turn_dept` at all — and delivers the frame to
the peer whenever the peer is active; turn exclusivity is enforced only
cooperatively by clients waiting for TURN. -/
theorem C1_msg_accepted_regardless_of_turn (s : ServerState) (d : Dept) (t : String)
    (hpeer : (s.clients (otherDept d)).active = true) :
    (handleMsgFromClient s d t).1.history = s.history ++ [⟨s.seq + 1, d, t⟩]
    ∧ (handleMsgFromClient s d t).1.seq = s.seq + 1
    ∧ (handleMsgFromClient s d t).2
        = [(otherDept d, SFrame.msg (s.seq + 1) d t), (otherDept d, SFrame.turn)] :=
  ⟨handleMsg_fst_history s d t, handleMsg_fst_seq s d t,
    handleMsg_snd_of_peer_active s d t hpeer⟩

/-- C1 witness: the amended theorem applied at a concrete state in which
the sender TI does not hold the turn. -/
theorem C1_witness :
    (startedState.clients (otherDept Dept.TI)).active = true
    ∧ ((handleMsgFromClient startedState Dept.TI "oi").1.history
          = startedState.history ++ [⟨startedState.seq + 1, Dept.TI, "oi"⟩]
        ∧ (handleMsgFromClient startedState Dept.TI "oi").1.seq = startedState.seq + 1
        ∧ (handleMsgFromClient startedState Dept.TI "oi").2
            = [(otherDept Dept.TI, SFrame.msg (startedState.seq + 1) Dept.TI "oi"),
                (otherDept Dept.TI, SFrame.turn)]) :=
  ⟨by decide, C1_msg_accepted_regardless_of_turn startedState Dept.TI "oi" (by decide)⟩

/-- C2: over any interleaving of handler events from the session start, the
sequence numbers of the accepted entries (content messages and synthetic
leave entries) in the history are exactly `1, 2, ..., seq` in order —
strictly increasing from 1 with no gaps and no repeats, whichever handler
requested them. -/
theorem C2_sequence_numbers_gapless (es : List Event) :
    ((run startedState es).1.history).map HistoryEntry.seq
      = List.range' 1 ((run startedState es).1.seq) :=
  run_seqInv startedState es (by unfold seqInvariant; decide)

/-- C3 counterexample: in a reachable post-shutdown state (both roles
inactive, shutdown flag set) the turn field still names a role — it is
never cleared at shutdown, contradicting the claim that it names no role
after shutdown. -/
theorem C3_counterexample :
    c3state.shutdownFlag = true
    ∧ allInactive c3state = true
    ∧ c3state.turn_dept = some Dept.TI := by
  decide

/-- C3 (amended): before the session starts the turn field names no role;
from session start onward it always names exactly one role, and it is
never cleared afterwards (it retains its last value even after shutdown);
`_handle_quit` and the handler cleanup never reassign the turn field;
`_handle_msg_from_client` either leaves the turn unchanged or assigns it to
a role that is active at the moment of assignment; and a TURN frame is only
ever sent to a role that was active when the event was handled. -/
theorem C3_turn_discipline (es : List Event) (s : ServerState) (e : Event)
    (r d : Dept) (t : String)
    (hmem : (r, SFrame.turn) ∈ (step s e).2) :
    preStartState.turn_dept = none
    ∧ ((run startedState es).1.turn_dept).isSome = true
    ∧ (handleQuit s d).1.turn_dept = s.turn_dept
    ∧ (handlerFinally s d).1.turn_dept = s.turn_dept
    ∧ ((handleMsgFromClient s d t).1.turn_dept = s.turn_dept
        ∨ ∃ r', (handleMsgFromClient s d t).1.turn_dept = some r'
            ∧ (s.clients r').active = true)
    ∧ (s.clients r).active = true := by
  refine ⟨rfl, run_turn_isSome startedState es (by decide),
    handleQuit_fst_turn s d, handlerFinally_fst_turn s d, ?_,
    step_turn_frame_active s e r hmem⟩
  rw [handleMsg_fst_turn]
  rcases deliverMsg_turn_grant (recordMsg s d t) d (s.seq + 1) t with h | ⟨r', h, hact⟩
  · left
    rw [h, recordMsg_turn]
  · right
    refine ⟨r', h, ?_⟩
    rwa [recordMsg_clients] at hact

/-- C3 witness: the amended theorem applied at the session start with a
message from RH, whose TURN frame goes to the active role TI. -/
theorem C3_witness :
    ((Dept.TI, SFrame.turn) ∈ (step startedState (Event.msg Dept.RH "oi")).2)
    ∧ (preStartState.turn_dept = none
        ∧ ((run startedState []).1.turn_dept).isSome = true
        ∧ (handleQuit startedState Dept.RH).1.turn_dept = startedState.turn_dept
        ∧ (handlerFinally startedState Dept.RH).1.turn_dept = startedState.turn_dept
        ∧ ((handleMsgFromClient startedState Dept.RH "oi").1.turn_dept = startedState.turn_dept
            ∨ ∃ r', (handleMsgFromClient startedState Dept.RH "oi").1.turn_dept = some r'
                ∧ (startedState.clients r').active = true)
        ∧ (startedState.clients Dept.TI).active = true) :=
  ⟨by decide, C3_turn_discipline [] startedState (Event.msg Dept.RH "oi")
    Dept.TI Dept.RH "oi" (by decide)⟩

/-- C4 counterexample: TI sends the leave keyword as a content frame while
the peer RH is active: the frames written are a MSG frame followed by a
TURN frame — no INFO frame is sent to the peer on this path, contradicting
the claim that the peer receives an INFO frame and a TURN frame. -/
theorem C4_counterexample :
    isSair "sair" = true
    ∧ (startedState.clients (otherDept Dept.TI)).active = true
    ∧ ((step startedState (Event.msg Dept.TI "sair")).2.filter
        (fun p => isInfoFrame p.2)) = []
    ∧ (step startedState (Event.msg Dept.TI "sair")).2
        = [(Dept.RH, SFrame.msg 1 Dept.TI "sair"), (Dept.RH, SFrame.turn)] := by
  decide

/-- C4 (amended): a content frame whose text equals the leave keyword
(case-insensitively, after trimming) sent while the peer is active is
recorded as a normal content history entry from the sender, the sender is
marked inactive, and the peer receives a MSG frame followed by a TURN
frame; no INFO frame is sent on this path. -/
theorem C4_sair_message_with_active_peer (s : ServerState) (d : Dept) (t : String)
    (hs : isSair t = true) (hpeer : (s.clients (otherDept d)).active = true) :
    (handleMsgFromClient s d t).1.history = s.history ++ [⟨s.seq + 1, d, t⟩]
    ∧ ((handleMsgFromClient s d t).1.clients d).active = false
    ∧ (handleMsgFromClient s d t).2
        = [(otherDept d, SFrame.msg (s.seq + 1) d t), (otherDept d, SFrame.turn)]
    ∧ ((handleMsgFromClient s d t).2.filter (fun p => isInfoFrame p.2)) = [] := by
  refine ⟨handleMsg_fst_history s d t, handleMsg_self_inactive_of_sair s d t hs,
    handleMsg_snd_of_peer_active s d t hpeer, ?_⟩
  rw [handleMsg_snd_of_peer_active s d t hpeer]
  simp [isInfoFrame]

/-- C4 witness: the amended theorem applied to the leave keyword sent with
surrounding whitespace and upper case, with the peer active. -/
theorem C4_witness :
    (isSair " SAIR " = true ∧ (startedState.clients (otherDept Dept.TI)).active = true)
    ∧ ((handleMsgFromClient startedState Dept.TI " SAIR ").1.history
          = startedState.history ++ [⟨startedState.seq + 1, Dept.TI, " SAIR "⟩]
        ∧ ((handleMsgFromClient startedState Dept.TI " SAIR ").1.clients Dept.TI).active = false
        ∧ (handleMsgFromClient startedState Dept.TI " SAIR ").2
            = [(otherDept Dept.TI, SFrame.msg (startedState.seq + 1) Dept.TI " SAIR "),
                (otherDept Dept.TI, SFrame.turn)]
        ∧ ((handleMsgFromClient startedState Dept.TI " SAIR ").2.filter
            (fun p => isInfoFrame p.2)) = []) :=
  ⟨⟨by decide, by decide⟩,
    C4_sair_message_with_active_peer startedState Dept.TI " SAIR " (by decide) (by decide)⟩

/-- C6: when the turn holder sends a content message and the peer is
active, the peer receives exactly one MSG frame carrying the sequence
number, the sender role and the text, followed by exactly one TURN frame;
the sender receives nothing, and the turn transfers to the peer. -/
theorem C6_delivery_to_peer (s : ServerState) (d : Dept) (t : String)
    (_hturn : s.turn_dept = some d)
    (hpeer : (s.clients (otherDept d)).active = true) :
    (step s (Event.msg d t)).2
      = [(otherDept d, SFrame.msg (s.seq + 1) d t), (otherDept d, SFrame.turn)]
    ∧ (step s (Event.msg d t)).1.turn_dept = some (otherDept d)
    ∧ ∀ fr, (d, fr) ∉ (step s (Event.msg d t)).2 := by
  refine ⟨handleMsg_snd_of_peer_active s d t hpeer,
    handleMsg_turn_of_peer_active s d t hpeer, ?_⟩
  intro fr hmem
  have hmem2 : (d, fr) ∈ (handleMsgFromClient s d t).2 := hmem
  rw [handleMsg_snd_of_peer_active s d t hpeer] at hmem2
  simp only [List.mem_cons, List.not_mem_nil, or_false, Prod.mk.injEq] at hmem2
  rcases hmem2 with ⟨hd, _⟩ | ⟨hd, _⟩ <;> exact otherDept_ne d hd.symm

/-- C6 witness: the theorem applied at the session start with RH (the turn
holder) sending a message to the active TI. -/
theorem C6_witness :
    (startedState.turn_dept = some Dept.RH
      ∧ (startedState.clients (otherDept Dept.RH)).active = true)
    ∧ ((step startedState (Event.msg Dept.RH "hello")).2
          = [(otherDept Dept.RH, SFrame.msg (startedState.seq + 1) Dept.RH "hello"),
              (otherDept Dept.RH, SFrame.turn)]
        ∧ (step startedState (Event.msg Dept.RH "hello")).1.turn_dept
            = some (otherDept Dept.RH)
        ∧ ∀ fr, (Dept.RH, fr) ∉ (step startedState (Event.msg Dept.RH "hello")).2) :=
  ⟨⟨by decide, by decide⟩,
    C6_delivery_to_peer startedState Dept.RH "hello" (by decide) (by decide)⟩

/-- C7: when the turn holder sends a content message while the peer is
inactive, the message is still sequenced and recorded in the history, no
MSG frame is delivered to anyone, and the sender receives exactly one INFO
notice (followed by the TURN frame that returns the turn) and retains the
turn. -/
theorem C7_peer_offline_fallback (s : ServerState) (d : Dept) (t : String)
    (_hturn : s.turn_dept = some d)
    (hself : (s.clients d).active = true)
    (hpeer : (s.clients (otherDept d)).active = false) :
    (step s (Event.msg d t)).1.history = s.history ++ [⟨s.seq + 1, d, t⟩]
    ∧ (step s (Event.msg d t)).1.seq = s.seq + 1
    ∧ (step s (Event.msg d t)).2
        = [(d, SFrame.info (deptName (otherDept d) ++ " offline. Sua mensagem foi registrada.")),
            (d, SFrame.turn)]
    ∧ ((step s (Event.msg d t)).2.filter (fun p => isInfoFrame p.2)).length = 1
    ∧ (∀ q r t', (r, SFrame.msg q d t') ∉ (step s (Event.msg d t)).2)
    ∧ (step s (Event.msg d t)).1.turn_dept = some d := by
  refine ⟨handleMsg_fst_history s d t, handleMsg_fst_seq s d t,
    handleMsg_snd_of_peer_inactive s d t hpeer hself, ?_, ?_,
    handleMsg_turn_of_peer_inactive s d t hpeer hself⟩
  · rw [show (step s (Event.msg d t)).2 = (handleMsgFromClient s d t).2 from rfl,
      handleMsg_snd_of_peer_inactive s d t hpeer hself]
    simp [isInfoFrame]
  · intro q r t' hmem
    have hmem2 : (r, SFrame.msg q d t') ∈ (handleMsgFromClient s d t).2 := hmem
    rw [handleMsg_snd_of_peer_inactive s d t hpeer hself] at hmem2
    simp [Prod.ext_iff] at hmem2

/-- C7 witness: the theorem applied in a reachable state in which TI has
left via the keyword message (so TI is inactive) and RH, holding the turn,
sends a further message. -/
theorem C7_witness :
    ((run startedState [Event.msg Dept.RH "a", Event.msg Dept.TI "sair"]).1.turn_dept
        = some Dept.RH
      ∧ ((run startedState [Event.msg Dept.RH "a", Event.msg Dept.TI "sair"]).1.clients
          Dept.RH).active = true
      ∧ ((run startedState [Event.msg Dept.RH "a", Event.msg Dept.TI "sair"]).1.clients
          (otherDept Dept.RH)).active = false)
    ∧ ((step (run startedState [Event.msg Dept.RH "a", Event.msg Dept.TI "sair"]).1
          (Event.msg Dept.RH "b")).1.history
        = (run startedState [Event.msg Dept.RH "a", Event.msg Dept.TI "sair"]).1.history
          ++ [⟨(run startedState [Event.msg Dept.RH "a", Event.msg Dept.TI "sair"]).1.seq + 1,
              Dept.RH, "b"⟩]
      ∧ (step (run startedState [Event.msg Dept.RH "a", Event.msg Dept.TI "sair"]).1
            (Event.msg Dept.RH "b")).1.seq
          = (run startedState [Event.msg Dept.RH "a", Event.msg Dept.TI "sair"]).1.seq + 1
      ∧ (step (run startedState [Event.msg Dept.RH "a", Event.msg Dept.TI "sair"]).1
            (Event.msg Dept.RH "b")).2
          = [(Dept.RH, SFrame.info (deptName (otherDept Dept.RH)
              ++ " offline. Sua mensagem foi registrada.")), (Dept.RH, SFrame.turn)]
      ∧ ((step (run startedState [Event.msg Dept.RH "a", Event.msg Dept.TI "sair"]).1
            (Event.msg Dept.RH "b")).2.filter (fun p => isInfoFrame p.2)).length = 1
      ∧ (∀ q r t', (r, SFrame.msg q Dept.RH t')
          ∉ (step (run startedState [Event.msg Dept.RH "a", Event.msg Dept.TI "sair"]).1
              (Event.msg Dept.RH "b")).2)
      ∧ (step (run startedState [Event.msg Dept.RH "a", Event.msg Dept.TI "sair"]).1
            (Event.msg Dept.RH "b")).1.turn_dept = some Dept.RH) :=
  ⟨⟨by decide, by decide, by decide⟩,
    C7_peer_offline_fallback
      (run startedState [Event.msg Dept.RH "a", Event.msg Dept.TI "sair"]).1
      Dept.RH "b" (by decide) (by decide) (by decide)⟩

/-- C5 counterexample: in the reachable shutdown state where RH left via
the keyword message (its socket was never closed) and TI then quit, RH is
inactive with an open socket, yet `_finish` writes no SHUTDOWN frame at
all — the code sends SHUTDOWN only to clients whose `active` flag is still
set, contradicting the claim that it is sent to open-but-inactive
participants. -/
theorem C5_counterexample :
    c5state.shutdownFlag = true
    ∧ (c5state.clients Dept.RH).active = false
    ∧ (c5state.clients Dept.RH).sockOpen = true
    ∧ (finish c5state).frames = [] := by
  decide

/-- C5 (amended): when the shutdown sequence runs (both participants
inactive), the final history dump is ordered by ascending sequence number,
no SHUTDOWN frame is written at all — `_finish` sends SHUTDOWN only to
participants whose liveness flag is still active, and at shutdown there
are none — and every client socket and the listening socket are closed. -/
theorem C5_finish_behaviour (s : ServerState) (h : allInactive s = true) :
    (finish s).dump.Pairwise (fun a b => a.seq ≤ b.seq)
    ∧ (finish s).frames = []
    ∧ (∀ d, ((finish s).state.clients d).sockOpen = false)
    ∧ (finish s).state.serverSockOpen = false := by
  refine ⟨?_, ?_, fun d => rfl, rfl⟩
  · have hs : (s.history.mergeSort (fun a b => decide (a.seq ≤ b.seq))).Pairwise
        (fun a b => decide (a.seq ≤ b.seq) = true) :=
      List.sorted_mergeSort
        (fun a b c hab hbc => by
          simp only [decide_eq_true_eq] at hab hbc ⊢
          omega)
        (fun a b => by
          rcases Nat.le_total a.seq b.seq with h1 | h1 <;> simp [h1])
        s.history
    exact hs.imp (fun hab => of_decide_eq_true hab)
  · unfold finish
    dsimp only
    unfold allInactive at h
    simp only [Bool.and_eq_true, Bool.not_eq_true'] at h
    simp [deptOrder, h.1, h.2]

/-- C5 witness: the amended theorem applied at the reachable shutdown
state of the counterexample. -/
theorem C5_witness :
    allInactive c5state = true
    ∧ ((finish c5state).dump.Pairwise (fun a b => a.seq ≤ b.seq)
      ∧ (finish c5state).frames = []
      ∧ (∀ d, ((finish c5state).state.clients d).sockOpen = false)
      ∧ (finish c5state).state.serverSockOpen = false) :=
  ⟨by decide, C5_finish_behaviour c5state (by decide)⟩

/-- C8: an explicit QUIT from role `d` appends a synthetic leave entry
`(seq+1, d, "sair")` to the history, marks `d` inactive, closes its
socket, and notifies the active peer with an INFO frame and a TURN frame;
a stream closure / read error performs the same inactive-marking,
socket-closing and peer notification but appends no history entry. -/
theorem C8_quit_vs_disconnect (s : ServerState) (d : Dept)
    (hpeer : (s.clients (otherDept d)).active = true) :
    (step s (Event.quit d)).1.history = s.history ++ [⟨s.seq + 1, d, "sair"⟩]
    ∧ ((step s (Event.quit d)).1.clients d).active = false
    ∧ ((step s (Event.quit d)).1.clients d).sockOpen = false
    ∧ (∃ txt, (otherDept d, SFrame.info txt) ∈ (step s (Event.quit d)).2)
    ∧ (otherDept d, SFrame.turn) ∈ (step s (Event.quit d)).2
    ∧ (step s (Event.disconnect d)).1.history = s.history
    ∧ ((step s (Event.disconnect d)).1.clients d).active = false
    ∧ ((step s (Event.disconnect d)).1.clients d).sockOpen = false
    ∧ (∃ txt, (otherDept d, SFrame.info txt) ∈ (step s (Event.disconnect d)).2)
    ∧ (otherDept d, SFrame.turn) ∈ (step s (Event.disconnect d)).2 := by
  have hq1 : (step s (Event.quit d)).1 = (handlerFinally (handleQuit s d).1 d).1 := rfl
  have hq2 : (step s (Event.quit d)).2
      = (handleQuit s d).2 ++ (handlerFinally (handleQuit s d).1 d).2 := rfl
  refine ⟨?_, ?_, ?_, ?_, ?_, handlerFinally_fst_history s d,
    handlerFinally_fst_self_inactive s d, handlerFinally_fst_self_closed s d, ?_, ?_⟩
  · rw [hq1, handlerFinally_fst_history, handleQuit_fst_history]
  · rw [hq1]
    exact handlerFinally_fst_self_inactive _ d
  · rw [hq1]
    exact handlerFinally_fst_self_closed _ d
  · refine ⟨deptName d ++ " saiu. Você ainda pode enviar mensagens.", ?_⟩
    rw [hq2]
    apply List.mem_append_left
    rw [handleQuit_snd_of_active s d hpeer]
    exact List.mem_cons_self _ _
  · rw [hq2]
    apply List.mem_append_left
    rw [handleQuit_snd_of_active s d hpeer]
    exact List.mem_cons_of_mem _ (List.mem_cons_self _ _)
  · refine ⟨deptName d ++ " desconectou. Você pode continuar.", ?_⟩
    rw [show (step s (Event.disconnect d)).2 = (handlerFinally s d).2 from rfl,
      handlerFinally_snd_of_active s d hpeer]
    exact List.mem_cons_self _ _
  · rw [show (step s (Event.disconnect d)).2 = (handlerFinally s d).2 from rfl,
      handlerFinally_snd_of_active s d hpeer]
    exact List.mem_cons_of_mem _ (List.mem_cons_self _ _)

/-- C8 witness: the theorem applied at the session start, with TI quitting
(or disconnecting) while RH is active. -/
theorem C8_witness :
    (startedState.clients (otherDept Dept.TI)).active = true
    ∧ ((step startedState (Event.quit Dept.TI)).1.history
          = startedState.history ++ [⟨startedState.seq + 1, Dept.TI, "sair"⟩]
        ∧ ((step startedState (Event.quit Dept.TI)).1.clients Dept.TI).active = false
        ∧ ((step startedState (Event.quit Dept.TI)).1.clients Dept.TI).sockOpen = false
        ∧ (∃ txt, (otherDept Dept.TI, SFrame.info txt)
            ∈ (step startedState (Event.quit Dept.TI)).2)
        ∧ (otherDept Dept.TI, SFrame.turn) ∈ (step startedState (Event.quit Dept.TI)).2
        ∧ (step startedState (Event.disconnect Dept.TI)).1.history = startedState.history
        ∧ ((step startedState (Event.disconnect Dept.TI)).1.clients Dept.TI).active = false
        ∧ ((step startedState (Event.disconnect Dept.TI)).1.clients Dept.TI).sockOpen = false
        ∧ (∃ txt, (otherDept Dept.TI, SFrame.info txt)
            ∈ (step startedState (Event.disconnect Dept.TI)).2)
        ∧ (otherDept Dept.TI, SFrame.turn)
            ∈ (step startedState (Event.disconnect Dept.TI)).2) :=
  ⟨by decide, C8_quit_vs_disconnect startedState Dept.TI (by decide)⟩

/-- C9: in any reachable state in which both participants are inactive the
shutdown flag is set; moreover the flag is monotone (no further event can
reset it) and the both-inactive condition is stable under every further
event, so the signalled shutdown condition is latched: `shutdown_event` is
set exactly once per session however many racing events re-check it, and
`start` runs `_finish` a single time when the wait returns. -/
theorem C9_shutdown_once (es : List Event) (e : Event)
    (h : allInactive (run startedState es).1 = true) :
    (run startedState es).1.shutdownFlag = true
    ∧ (step (run startedState es).1 e).1.shutdownFlag = true
    ∧ allInactive (step (run startedState es).1 e).1 = true := by
  have hinv : shutdownInvariant (run startedState es).1 :=
    run_shutInv startedState es (by intro hh; exact absurd hh (by decide))
  have h1 := hinv h
  exact ⟨h1, step_flag_mono _ e h1, allInactive_step_mono _ e h⟩

/-- C9 witness: the theorem applied after both roles quit, with a further
disconnect event racing against the already-triggered shutdown. -/
theorem C9_witness :
    allInactive (run startedState [Event.quit Dept.RH, Event.quit Dept.TI]).1 = true
    ∧ ((run startedState [Event.quit Dept.RH, Event.quit Dept.TI]).1.shutdownFlag = true
      ∧ (step (run startedState [Event.quit Dept.RH, Event.quit Dept.TI]).1
          (Event.disconnect Dept.TI)).1.shutdownFlag = true
      ∧ allInactive (step (run startedState [Event.quit Dept.RH, Event.quit Dept.TI]).1
          (Event.disconnect Dept.TI)).1 = true) :=
  ⟨by decide, C9_shutdown_once [Event.quit Dept.RH, Event.quit Dept.TI]
    (Event.disconnect Dept.TI) (by decide)⟩

/-- C10: when the interactive client's user enters the leave keyword
(case-insensitively, after stripping), the client sends the literal
content frame `MSG|sair` followed by `QUIT`, so a single voluntary
departure appends two consecutive history entries with the same text
"sair" from the same role under two distinct consecutive sequence
numbers. -/
theorem C10_leave_double_entry (s : ServerState) (d : Dept) (raw : String)
    (h : (pyLower (pyStrip raw) == "sair") = true) :
    clientFramesForInput raw = [CFrame.msg "sair", CFrame.quit]
    ∧ (run s ((clientFramesForInput raw).map (eventOfCFrame d))).1.history
        = s.history ++ [⟨s.seq + 1, d, "sair"⟩, ⟨s.seq + 2, d, "sair"⟩] := by
  have hframes : clientFramesForInput raw = [CFrame.msg "sair", CFrame.quit] := by
    unfold clientFramesForInput
    dsimp only
    rw [if_pos h]
  refine ⟨hframes, ?_⟩
  rw [hframes]
  show (step (step s (Event.msg d "sair")).1 (Event.quit d)).1.history = _
  have e1h : (step s (Event.msg d "sair")).1.history
      = s.history ++ [⟨s.seq + 1, d, "sair"⟩] := handleMsg_fst_history s d "sair"
  have e1s : (step s (Event.msg d "sair")).1.seq = s.seq + 1 :=
    handleMsg_fst_seq s d "sair"
  have e2 : (step (step s (Event.msg d "sair")).1 (Event.quit d)).1.history
      = (step s (Event.msg d "sair")).1.history
        ++ [⟨(step s (Event.msg d "sair")).1.seq + 1, d, "sair"⟩] := by
    show ((handlerFinally (handleQuit (step s (Event.msg d "sair")).1 d).1 d).1.history) = _
    rw [handlerFinally_fst_history, handleQuit_fst_history]
  rw [e2, e1h, e1s, List.append_assoc]
  rfl

/-- C10 witness: the theorem applied to the raw input " SAIR " at the
session start, with RH as the departing role. -/
theorem C10_witness :
    (pyLower (pyStrip " SAIR ") == "sair") = true
    ∧ (clientFramesForInput " SAIR " = [CFrame.msg "sair", CFrame.quit]
      ∧ (run startedState
            ((clientFramesForInput " SAIR ").map (eventOfCFrame Dept.RH))).1.history
          = startedState.history ++ [⟨startedState.seq + 1, Dept.RH, "sair"⟩,
              ⟨startedState.seq + 2, Dept.RH, "sair"⟩]) :=
  ⟨by decide, C10_leave_double_entry startedState Dept.RH " SAIR " (by decide)⟩

end Chat
